import Mathlib

/-!
Shallow embedding of `src/KeysightB2900.py`, a two-channel SMU driver that
formats SCPI command strings and sends them over a VISA-style transport.

Modelling choices:
* The transport is a collaborator with a `query : String → String` response
  oracle; `write` has no response.
* Every operation returns the list of transport calls it performed together
  with an `Except DevError` outcome, so "issues exactly one command" and
  "issues no command" are provable statements.
* Python's `raise ValueError(...)` on a limit out of range is
  `DevError.rangeExceeded`, `raise RuntimeError("Device not connected.")` is
  `DevError.notConnected`, the failed `assert "B2902B" in self.dev_id` is
  `DevError.unexpectedDevice`, and evaluating `self.dev.query` when
  `self.dev` is `None` (an `AttributeError` in Python) is
  `DevError.noneAttributeError "query"`.
* Numeric parameters are rationals; Python's f-string rendering of a value
  is `toString`.
-/

/-- A single call made on the transport collaborator. -/
inductive Call where
  | openR (addr : String)
  | write (cmd : String)
  | query (q : String)
  | close
deriving DecidableEq, Repr

/-- Error outcomes of driver operations (spec §7 taxonomy, plus the
`AttributeError` Python raises when a method is looked up on `None`). -/
inductive DevError where
  | notConnected
  | rangeExceeded (msg : String)
  | unexpectedDevice
  | noneAttributeError (attr : String)
deriving DecidableEq, Repr

/-- The external transport: only its query responses matter to the driver. -/
structure Transport where
  query : String → String

/-- Result of an operation: the transport calls it performed, in order, and
its outcome. -/
abbrev R (α : Type) := List Call × Except DevError α

/-- `SMUChannel` state: channel token and the two range ceilings
(`self.channel`, `self.__voltage_range`, `self.__current_range`).
The Python back-reference `self.smu` is passed explicitly to each method. -/
structure SMUChannel where
  channel : String
  voltage_range : ℚ
  current_range : ℚ
deriving Repr

/-- `SMUChannel.__init__`: ceilings default to 20 V and 2 A. -/
def SMUChannel.init (channel : String) : SMUChannel :=
  { channel := channel, voltage_range := 20, current_range := 2 }

/-- `KeysightB2900` state: the transport handle (`self.dev`, `None` after
`close()`), the identity string, and the two owned channels. -/
structure KeysightB2900 where
  dev : Option Transport
  dev_id : String
  chan1 : SMUChannel
  chan2 : SMUChannel

namespace KeysightB2900

/-- Class constant `CHAN1 = "2"`. -/
def CHAN1 : String := "2"

/-- Class constant `CHAN2 = "1"`. -/
def CHAN2 : String := "1"

/-- Class constant `CURRENT_MODE = "CURR"`. -/
def CURRENT_MODE : String := "CURR"

/-- Class constant `VOLTAGE_MODE = "VOLT"`. -/
def VOLTAGE_MODE : String := "VOLT"

/-- Class constant `STATE_ON = "ON"`. -/
def STATE_ON : String := "ON"

/-- Class constant `STATE_OFF = "OFF"`. -/
def STATE_OFF : String := "OFF"

end KeysightB2900

/-- Bool-valued test that `sub` occurs as a contiguous infix of `l`. -/
def listHasSub (sub : List Char) : List Char → Bool
  | [] => sub.isEmpty
  | c :: rest => sub.isPrefixOf (c :: rest) || listHasSub sub rest

/-- Python's `sub in s` substring containment on strings. -/
def strContains (s sub : String) : Bool :=
  listHasSub sub.data s.data

namespace KeysightB2900

/-- `KeysightB2900.__init__(dev_addr)`: open the resource, query `*IDN?`,
assert the response contains `"B2902B"`, and build the two channels.
`rm` models `pyvisa.ResourceManager().open_resource`.  The returned list is
the transport traffic of construction; note that the failure branch raises
without issuing any close. -/
def connect (rm : String → Transport) (dev_addr : String) :
    List Call × Except DevError KeysightB2900 :=
  let dev := rm dev_addr
  let dev_id := dev.query "*IDN?"
  let calls := [Call.openR dev_addr, Call.query "*IDN?"]
  if strContains dev_id "B2902B" then
    (calls, Except.ok { dev := some dev, dev_id := dev_id,
                        chan1 := SMUChannel.init "1",
                        chan2 := SMUChannel.init "2" })
  else
    (calls, Except.error DevError.unexpectedDevice)

/-- `close()`: close the transport if open and null the handle; a no-op on an
already-closed device. Returns the post-state and the transport calls. -/
def close (d : KeysightB2900) : KeysightB2900 × List Call :=
  match d.dev with
  | some _ => ({ d with dev := none }, [Call.close])
  | none => (d, [])

/-- `write_command(command)`: guard on the handle, then `self.dev.write`. -/
def write_command (d : KeysightB2900) (command : String) : R Unit :=
  match d.dev with
  | none => ([], Except.error DevError.notConnected)
  | some _ => ([Call.write command], Except.ok ())

/-- `write_query(query)`: guard on the handle, then return `self.dev.query`. -/
def write_query (d : KeysightB2900) (q : String) : R String :=
  match d.dev with
  | none => ([], Except.error DevError.notConnected)
  | some t => ([Call.query q], Except.ok (t.query q))

/-- `reset()`: guard on the handle, then write `*RST`. -/
def reset (d : KeysightB2900) : R Unit :=
  match d.dev with
  | none => ([], Except.error DevError.notConnected)
  | some _ => ([Call.write "*RST"], Except.ok ())

/-- `_set_measurement_speed(channel, speed, sense_mode)`. -/
def set_measurement_speed (d : KeysightB2900) (channel : String) (speed : ℚ)
    (sense_mode : String) : R Unit :=
  d.write_command (":SENS" ++ channel ++ ":" ++ sense_mode ++ ":NPLC " ++ toString speed)

/-- `_set_source_mode(channel, source_mode)`. -/
def set_source_mode (d : KeysightB2900) (channel source_mode : String) : R Unit :=
  d.write_command (":SOUR" ++ channel ++ ":FUNC:MODE " ++ source_mode)

/-- `_set_sense_wire_mode(channel, four_wire_on)`. -/
def set_sense_wire_mode (d : KeysightB2900) (channel four_wire_on : String) : R Unit :=
  d.write_command (":SENS" ++ channel ++ ":REM " ++ four_wire_on)

/-- `_set_limit(channel, sense_mode, value)`. -/
def set_limit (d : KeysightB2900) (channel sense_mode : String) (value : ℚ) : R Unit :=
  d.write_command (":SENS" ++ channel ++ ":" ++ sense_mode ++ ":PROT " ++ toString value)

/-- `_set_level(channel, source_mode, value)`. -/
def set_level (d : KeysightB2900) (channel source_mode : String) (value : ℚ) : R Unit :=
  d.write_command (":SOUR" ++ channel ++ ":" ++ source_mode ++ " " ++ toString value)

/-- `_set_output_state(channel, on_off)`. -/
def set_output_state (d : KeysightB2900) (channel on_off : String) : R Unit :=
  d.write_command (":OUTP" ++ channel ++ " " ++ on_off)

/-- `_measure(channel, mode)`: calls `self.dev.query` with NO handle guard —
on a closed device `self.dev` is `None` and Python raises `AttributeError`
(`'NoneType' object has no attribute 'query'`), not the
"Device not connected." error. -/
def measure (d : KeysightB2900) (channel mode : String) : R String :=
  match d.dev with
  | none => ([], Except.error (DevError.noneAttributeError "query"))
  | some t =>
      ([Call.query ("MEAS:" ++ mode ++ "? (@" ++ channel ++ ")")],
       Except.ok (t.query ("MEAS:" ++ mode ++ "? (@" ++ channel ++ ")")))

end KeysightB2900

namespace SMUChannel

/-- `set_mode_voltage_source()`. -/
def set_mode_voltage_source (ch : SMUChannel) (d : KeysightB2900) : R Unit :=
  d.set_source_mode ch.channel KeysightB2900.VOLTAGE_MODE

/-- `set_mode_current_source()`. -/
def set_mode_current_source (ch : SMUChannel) (d : KeysightB2900) : R Unit :=
  d.set_source_mode ch.channel KeysightB2900.CURRENT_MODE

/-- `set_voltage_limit(value)`: validate against the voltage ceiling, then
forward as a CURRENT-mode limit command. -/
def set_voltage_limit (ch : SMUChannel) (d : KeysightB2900) (value : ℚ) : R Unit :=
  if value ≤ ch.voltage_range then
    d.set_limit ch.channel KeysightB2900.CURRENT_MODE value
  else
    ([], Except.error (DevError.rangeExceeded
      "The limit is not within the range. Please set the range first"))

/-- `set_current_limit(value)`: validate against the current ceiling, then
forward as a VOLTAGE-mode limit command. -/
def set_current_limit (ch : SMUChannel) (d : KeysightB2900) (value : ℚ) : R Unit :=
  if value ≤ ch.current_range then
    d.set_limit ch.channel KeysightB2900.VOLTAGE_MODE value
  else
    ([], Except.error (DevError.rangeExceeded
      "The limit is not within the range. Please set the range first"))

/-- `set_voltage(value)`: no validation; forward as a VOLT level command. -/
def set_voltage (ch : SMUChannel) (d : KeysightB2900) (value : ℚ) : R Unit :=
  d.set_level ch.channel KeysightB2900.VOLTAGE_MODE value

/-- `set_current(value)`: no validation; forward as a CURR level command. -/
def set_current (ch : SMUChannel) (d : KeysightB2900) (value : ℚ) : R Unit :=
  d.set_level ch.channel KeysightB2900.CURRENT_MODE value

/-- `enable_output()`. -/
def enable_output (ch : SMUChannel) (d : KeysightB2900) : R Unit :=
  d.set_output_state ch.channel KeysightB2900.STATE_ON

/-- `disable_output()`. -/
def disable_output (ch : SMUChannel) (d : KeysightB2900) : R Unit :=
  d.set_output_state ch.channel KeysightB2900.STATE_OFF

/-- `measure_voltage()`. -/
def measure_voltage (ch : SMUChannel) (d : KeysightB2900) : R String :=
  d.measure ch.channel KeysightB2900.VOLTAGE_MODE

/-- `measure_current()`. -/
def measure_current (ch : SMUChannel) (d : KeysightB2900) : R String :=
  d.measure ch.channel KeysightB2900.CURRENT_MODE

end SMUChannel

/-- Selector for the two channel fields of a device. -/
inductive ChanSel where
  | one
  | two
deriving DecidableEq, Repr

/-- The user-facing operations of `SMUChannel`, as data, so that a statement
can quantify over every channel operation. -/
inductive ChanOp where
  | set_mode_voltage_source
  | set_mode_current_source
  | set_voltage_limit (v : ℚ)
  | set_current_limit (v : ℚ)
  | set_voltage (v : ℚ)
  | set_current (v : ℚ)
  | enable_output
  | disable_output
  | measure_voltage
  | measure_current
deriving Repr

/-- Coerce a unit-valued result to a string-valued one (commands have no
response text). -/
def liftR (r : R Unit) : R String :=
  (r.1, r.2.map fun _ => "")

/-- Dispatch a `ChanOp` to the corresponding `SMUChannel` method. -/
def SMUChannel.run (ch : SMUChannel) (d : KeysightB2900) : ChanOp → R String
  | ChanOp.set_mode_voltage_source => liftR (ch.set_mode_voltage_source d)
  | ChanOp.set_mode_current_source => liftR (ch.set_mode_current_source d)
  | ChanOp.set_voltage_limit v => liftR (ch.set_voltage_limit d v)
  | ChanOp.set_current_limit v => liftR (ch.set_current_limit d v)
  | ChanOp.set_voltage v => liftR (ch.set_voltage d v)
  | ChanOp.set_current v => liftR (ch.set_current d v)
  | ChanOp.enable_output => liftR (ch.enable_output d)
  | ChanOp.disable_output => liftR (ch.disable_output d)
  | ChanOp.measure_voltage => ch.measure_voltage d
  | ChanOp.measure_current => ch.measure_current d

/-- Every public operation of the device and its channels, as data. -/
inductive Op where
  | chanOp (sel : ChanSel) (cop : ChanOp)
  | close
  | reset
  | write_command (cmd : String)
  | write_query (q : String)
deriving Repr

/-- One public operation applied to a device: the post-state of the device
together with the operation's result.  Only `close` changes the state; no
method of the source assigns to any other field. -/
def KeysightB2900.step (d : KeysightB2900) : Op → KeysightB2900 × R String
  | Op.chanOp ChanSel.one cop => (d, d.chan1.run d cop)
  | Op.chanOp ChanSel.two cop => (d, d.chan2.run d cop)
  | Op.close => ((d.close).1, ((d.close).2, Except.ok ""))
  | Op.reset => (d, liftR d.reset)
  | Op.write_command cmd => (d, liftR (d.write_command cmd))
  | Op.write_query q => (d, d.write_query q)

/-- A transport whose identity response is a B2902B identity string. -/
def tOK : Transport :=
  { query := fun _ => "Keysight Technologies,B2902B,MY00000000,1.0.0" }

/-- A transport whose identity response names a different instrument. -/
def tBad : Transport :=
  { query := fun _ => "Keysight Technologies,B2912A,MY11111111,1.0.0" }

/-- A concrete connected device, as built by a successful `connect` on `tOK`. -/
def dConn : KeysightB2900 :=
  { dev := some tOK
    dev_id := "Keysight Technologies,B2902B,MY00000000,1.0.0"
    chan1 := SMUChannel.init "1"
    chan2 := SMUChannel.init "2" }

/-- The concrete device `dConn` after `close()`. -/
def dClosed : KeysightB2900 :=
  (dConn.close).1

/-- A transport handle opened during the given call trace is still open at
its end: some open call occurred and no close call did. -/
def openHandleRemains (calls : List Call) : Bool :=
  (calls.any fun c => match c with | Call.openR _ => true | _ => false)
    && !(calls.any fun c => match c with | Call.close => true | _ => false)

/-! ## Helper lemmas -/

/-- String append is associative. -/
theorem str_append_assoc (a b c : String) : a ++ b ++ c = a ++ (b ++ c) := by
  rcases a with ⟨la⟩
  rcases b with ⟨lb⟩
  rcases c with ⟨lc⟩
  exact congrArg String.mk (List.append_assoc la lb lc)

/-- In-range `set_voltage_limit` issues exactly the CURR-mode protection
command. -/
theorem svl_ok (t : Transport) (i : String) (u1 u2 ch : SMUChannel) (v : ℚ)
    (hv : v ≤ ch.voltage_range) :
    ch.set_voltage_limit ⟨some t, i, u1, u2⟩ v
      = ([Call.write (":SENS" ++ ch.channel ++ ":CURR:PROT " ++ toString v)],
         Except.ok ()) := by
  unfold SMUChannel.set_voltage_limit
  rw [if_pos hv]
  show ([Call.write (":SENS" ++ ch.channel ++ ":" ++ "CURR" ++ ":PROT " ++ toString v)],
        (Except.ok () : Except DevError Unit)) = _
  rw [str_append_assoc (":SENS" ++ ch.channel) ":" "CURR",
      str_append_assoc (":SENS" ++ ch.channel) (":" ++ "CURR") ":PROT "]
  rfl

/-- Out-of-range `set_voltage_limit` raises and issues nothing. -/
theorem svl_err (t : Transport) (i : String) (u1 u2 ch : SMUChannel) (v : ℚ)
    (hv : ch.voltage_range < v) :
    ch.set_voltage_limit ⟨some t, i, u1, u2⟩ v
      = ([], Except.error (DevError.rangeExceeded
          "The limit is not within the range. Please set the range first")) := by
  unfold SMUChannel.set_voltage_limit
  rw [if_neg (not_le.mpr hv)]

/-- In-range `set_current_limit` issues exactly the VOLT-mode protection
command. -/
theorem scl_ok (t : Transport) (i : String) (u1 u2 ch : SMUChannel) (v : ℚ)
    (hv : v ≤ ch.current_range) :
    ch.set_current_limit ⟨some t, i, u1, u2⟩ v
      = ([Call.write (":SENS" ++ ch.channel ++ ":VOLT:PROT " ++ toString v)],
         Except.ok ()) := by
  unfold SMUChannel.set_current_limit
  rw [if_pos hv]
  show ([Call.write (":SENS" ++ ch.channel ++ ":" ++ "VOLT" ++ ":PROT " ++ toString v)],
        (Except.ok () : Except DevError Unit)) = _
  rw [str_append_assoc (":SENS" ++ ch.channel) ":" "VOLT",
      str_append_assoc (":SENS" ++ ch.channel) (":" ++ "VOLT") ":PROT "]
  rfl

/-- Out-of-range `set_current_limit` raises and issues nothing. -/
theorem scl_err (t : Transport) (i : String) (u1 u2 ch : SMUChannel) (v : ℚ)
    (hv : ch.current_range < v) :
    ch.set_current_limit ⟨some t, i, u1, u2⟩ v
      = ([], Except.error (DevError.rangeExceeded
          "The limit is not within the range. Please set the range first")) := by
  unfold SMUChannel.set_current_limit
  rw [if_neg (not_le.mpr hv)]

/-- `set_voltage` always issues exactly the VOLT level command. -/
theorem sv_ok (t : Transport) (i : String) (u1 u2 ch : SMUChannel) (v : ℚ) :
    ch.set_voltage ⟨some t, i, u1, u2⟩ v
      = ([Call.write (":SOUR" ++ ch.channel ++ ":VOLT " ++ toString v)],
         Except.ok ()) := by
  show ([Call.write (":SOUR" ++ ch.channel ++ ":" ++ "VOLT" ++ " " ++ toString v)],
        (Except.ok () : Except DevError Unit)) = _
  rw [str_append_assoc (":SOUR" ++ ch.channel) ":" "VOLT",
      str_append_assoc (":SOUR" ++ ch.channel) (":" ++ "VOLT") " "]
  rfl

/-- `set_current` always issues exactly the CURR level command. -/
theorem sc_ok (t : Transport) (i : String) (u1 u2 ch : SMUChannel) (v : ℚ) :
    ch.set_current ⟨some t, i, u1, u2⟩ v
      = ([Call.write (":SOUR" ++ ch.channel ++ ":CURR " ++ toString v)],
         Except.ok ()) := by
  show ([Call.write (":SOUR" ++ ch.channel ++ ":" ++ "CURR" ++ " " ++ toString v)],
        (Except.ok () : Except DevError Unit)) = _
  rw [str_append_assoc (":SOUR" ++ ch.channel) ":" "CURR",
      str_append_assoc (":SOUR" ++ ch.channel) (":" ++ "CURR") " "]
  rfl

/-! ## Claim theorems -/

/-- C1: for every connected device and every channel, `set_voltage_limit v`
succeeds iff `v` is at most the channel's voltage-range ceiling (default 20);
on success it issues exactly the one CURRENT-mode limit command
`:SENS{chan}:CURR:PROT {v}`, and beyond the ceiling it raises
`RangeExceededError` and issues no command. -/
theorem c1_set_voltage_limit (t : Transport) (i : String) (u1 u2 ch : SMUChannel)
    (v : ℚ) :
    (v ≤ ch.voltage_range →
      ch.set_voltage_limit ⟨some t, i, u1, u2⟩ v
        = ([Call.write (":SENS" ++ ch.channel ++ ":CURR:PROT " ++ toString v)],
           Except.ok ()))
    ∧ (ch.voltage_range < v →
      ch.set_voltage_limit ⟨some t, i, u1, u2⟩ v
        = ([], Except.error (DevError.rangeExceeded
            "The limit is not within the range. Please set the range first")))
    ∧ (∀ c, (SMUChannel.init c).voltage_range = 20) :=
  ⟨fun hv => svl_ok t i u1 u2 ch v hv, fun hv => svl_err t i u1 u2 ch v hv,
   fun _ => rfl⟩

/-- C1 witness: on a concrete connected device and channel "1", the limit 5
is accepted with the exact command, and 25 is rejected. -/
theorem c1_set_voltage_limit_witness :
    ((5:ℚ) ≤ (SMUChannel.init "1").voltage_range
      ∧ (SMUChannel.init "1").set_voltage_limit
          ⟨some tOK, "id", SMUChannel.init "1", SMUChannel.init "2"⟩ 5
        = ([Call.write ":SENS1:CURR:PROT 5"], Except.ok ()))
    ∧ ((SMUChannel.init "1").voltage_range < 25
      ∧ (SMUChannel.init "1").set_voltage_limit
          ⟨some tOK, "id", SMUChannel.init "1", SMUChannel.init "2"⟩ 25
        = ([], Except.error (DevError.rangeExceeded
            "The limit is not within the range. Please set the range first"))) := by
  refine ⟨⟨by decide, ?_⟩, ⟨by decide, ?_⟩⟩
  · rw [(c1_set_voltage_limit tOK "id" (SMUChannel.init "1") (SMUChannel.init "2")
      (SMUChannel.init "1") 5).1 (by decide)]
    rfl
  · exact (c1_set_voltage_limit tOK "id" (SMUChannel.init "1") (SMUChannel.init "2")
      (SMUChannel.init "1") 25).2.1 (by decide)

/-- C2: for every connected device and every channel, `set_current_limit v`
succeeds iff `v` is at most the channel's current-range ceiling (default 2);
on success it issues exactly the one VOLTAGE-mode limit command
`:SENS{chan}:VOLT:PROT {v}`, and beyond the ceiling it raises
`RangeExceededError` and issues no command. -/
theorem c2_set_current_limit (t : Transport) (i : String) (u1 u2 ch : SMUChannel)
    (v : ℚ) :
    (v ≤ ch.current_range →
      ch.set_current_limit ⟨some t, i, u1, u2⟩ v
        = ([Call.write (":SENS" ++ ch.channel ++ ":VOLT:PROT " ++ toString v)],
           Except.ok ()))
    ∧ (ch.current_range < v →
      ch.set_current_limit ⟨some t, i, u1, u2⟩ v
        = ([], Except.error (DevError.rangeExceeded
            "The limit is not within the range. Please set the range first")))
    ∧ (∀ c, (SMUChannel.init c).current_range = 2) :=
  ⟨fun hv => scl_ok t i u1 u2 ch v hv, fun hv => scl_err t i u1 u2 ch v hv,
   fun _ => rfl⟩

/-- C2 witness: on a concrete connected device and channel "2", the limit 1
is accepted with the exact command, and 3 is rejected. -/
theorem c2_set_current_limit_witness :
    ((1:ℚ) ≤ (SMUChannel.init "2").current_range
      ∧ (SMUChannel.init "2").set_current_limit
          ⟨some tOK, "id", SMUChannel.init "1", SMUChannel.init "2"⟩ 1
        = ([Call.write ":SENS2:VOLT:PROT 1"], Except.ok ()))
    ∧ ((SMUChannel.init "2").current_range < 3
      ∧ (SMUChannel.init "2").set_current_limit
          ⟨some tOK, "id", SMUChannel.init "1", SMUChannel.init "2"⟩ 3
        = ([], Except.error (DevError.rangeExceeded
            "The limit is not within the range. Please set the range first"))) := by
  refine ⟨⟨by decide, ?_⟩, ⟨by decide, ?_⟩⟩
  · rw [(c2_set_current_limit tOK "id" (SMUChannel.init "1") (SMUChannel.init "2")
      (SMUChannel.init "2") 1).1 (by decide)]
    rfl
  · exact (c2_set_current_limit tOK "id" (SMUChannel.init "1") (SMUChannel.init "2")
      (SMUChannel.init "2") 3).2.1 (by decide)

/-- C8: on a connected device, `set_voltage v` and `set_current v` never
raise a range error for any `v`: each issues exactly one level command
(`:SOUR{chan}:VOLT {v}` resp. `:SOUR{chan}:CURR {v}`) and succeeds, with no
comparison of `v` against the channel's ceilings. -/
theorem c8_set_level_no_validation (t : Transport) (i : String)
    (u1 u2 ch : SMUChannel) (v : ℚ) :
    ch.set_voltage ⟨some t, i, u1, u2⟩ v
      = ([Call.write (":SOUR" ++ ch.channel ++ ":VOLT " ++ toString v)],
         Except.ok ())
    ∧ ch.set_current ⟨some t, i, u1, u2⟩ v
      = ([Call.write (":SOUR" ++ ch.channel ++ ":CURR " ++ toString v)],
         Except.ok ()) :=
  ⟨sv_ok t i u1 u2 ch v, sc_ok t i u1 u2 ch v⟩

/-- C10: limit validation has no lower bound: any `v` at most the ceiling —
zero and large negative values included — is accepted and forwarded verbatim
into the protection command. -/
theorem c10_no_lower_bound (t : Transport) (i : String) (u1 u2 ch : SMUChannel)
    (v : ℚ) :
    (v ≤ ch.voltage_range →
      ch.set_voltage_limit ⟨some t, i, u1, u2⟩ v
        = ([Call.write (":SENS" ++ ch.channel ++ ":CURR:PROT " ++ toString v)],
           Except.ok ()))
    ∧ (v ≤ ch.current_range →
      ch.set_current_limit ⟨some t, i, u1, u2⟩ v
        = ([Call.write (":SENS" ++ ch.channel ++ ":VOLT:PROT " ++ toString v)],
           Except.ok ())) :=
  ⟨fun hv => svl_ok t i u1 u2 ch v hv, fun hv => scl_ok t i u1 u2 ch v hv⟩

/-- C10 witness: the values 0 and -1000000 are both accepted on a default
channel and forwarded verbatim. -/
theorem c10_no_lower_bound_witness :
    ((0:ℚ) ≤ (SMUChannel.init "1").voltage_range
      ∧ (SMUChannel.init "1").set_voltage_limit
          ⟨some tOK, "id", SMUChannel.init "1", SMUChannel.init "2"⟩ 0
        = ([Call.write ":SENS1:CURR:PROT 0"], Except.ok ()))
    ∧ ((-1000000:ℚ) ≤ (SMUChannel.init "1").current_range
      ∧ (SMUChannel.init "1").set_current_limit
          ⟨some tOK, "id", SMUChannel.init "1", SMUChannel.init "2"⟩ (-1000000)
        = ([Call.write ":SENS1:VOLT:PROT -1000000"], Except.ok ())) := by
  refine ⟨⟨by decide, ?_⟩, ⟨by decide, ?_⟩⟩
  · rw [(c10_no_lower_bound tOK "id" (SMUChannel.init "1") (SMUChannel.init "2")
      (SMUChannel.init "1") 0).1 (by decide)]
    rfl
  · rw [(c10_no_lower_bound tOK "id" (SMUChannel.init "1") (SMUChannel.init "2")
      (SMUChannel.init "1") (-1000000)).2 (by decide)]
    rfl

/-- C5: on a connected device, `measure_voltage()` issues exactly one query,
of the exact form `MEAS:VOLT? (@{chan})`, and returns the transport's
response unmodified. -/
theorem c5_measure_voltage_raw (t : Transport) (i : String)
    (u1 u2 ch : SMUChannel) :
    ch.measure_voltage ⟨some t, i, u1, u2⟩
      = ([Call.query ("MEAS:VOLT? (@" ++ ch.channel ++ ")")],
         Except.ok (t.query ("MEAS:VOLT? (@" ++ ch.channel ++ ")"))) := rfl

/-- C6: on a connected channel, `set_mode_voltage_source(); set_voltage(5);
enable_output(); measure_current()` performs exactly the four transport calls
`:SOUR{chan}:FUNC:MODE VOLT`, `:SOUR{chan}:VOLT 5`, `:OUTP{chan} ON`,
`MEAS:CURR? (@{chan})`, in this order, and nothing else. -/
theorem c6_scenario (t : Transport) (i : String) (u1 u2 ch : SMUChannel) :
    ch.set_mode_voltage_source ⟨some t, i, u1, u2⟩
      = ([Call.write (":SOUR" ++ ch.channel ++ ":FUNC:MODE VOLT")], Except.ok ())
    ∧ ch.set_voltage ⟨some t, i, u1, u2⟩ 5
      = ([Call.write (":SOUR" ++ ch.channel ++ ":VOLT 5")], Except.ok ())
    ∧ ch.enable_output ⟨some t, i, u1, u2⟩
      = ([Call.write (":OUTP" ++ ch.channel ++ " ON")], Except.ok ())
    ∧ ch.measure_current ⟨some t, i, u1, u2⟩
      = ([Call.query ("MEAS:CURR? (@" ++ ch.channel ++ ")")],
         Except.ok (t.query ("MEAS:CURR? (@" ++ ch.channel ++ ")")))
    ∧ (ch.set_mode_voltage_source ⟨some t, i, u1, u2⟩).1
        ++ (ch.set_voltage ⟨some t, i, u1, u2⟩ 5).1
        ++ (ch.enable_output ⟨some t, i, u1, u2⟩).1
        ++ (ch.measure_current ⟨some t, i, u1, u2⟩).1
      = [Call.write (":SOUR" ++ ch.channel ++ ":FUNC:MODE VOLT"),
         Call.write (":SOUR" ++ ch.channel ++ ":VOLT 5"),
         Call.write (":OUTP" ++ ch.channel ++ " ON"),
         Call.query ("MEAS:CURR? (@" ++ ch.channel ++ ")")] := by
  have h1 : ch.set_mode_voltage_source ⟨some t, i, u1, u2⟩
      = ([Call.write (":SOUR" ++ ch.channel ++ ":FUNC:MODE VOLT")], Except.ok ()) := by
    show ([Call.write (":SOUR" ++ ch.channel ++ ":FUNC:MODE " ++ "VOLT")],
          (Except.ok () : Except DevError Unit)) = _
    rw [str_append_assoc (":SOUR" ++ ch.channel) ":FUNC:MODE " "VOLT"]
    rfl
  have h2 : ch.set_voltage ⟨some t, i, u1, u2⟩ 5
      = ([Call.write (":SOUR" ++ ch.channel ++ ":VOLT 5")], Except.ok ()) := by
    rw [sv_ok t i u1 u2 ch 5,
        str_append_assoc (":SOUR" ++ ch.channel) ":VOLT " (toString (5:ℚ))]
    rfl
  have h3 : ch.enable_output ⟨some t, i, u1, u2⟩
      = ([Call.write (":OUTP" ++ ch.channel ++ " ON")], Except.ok ()) := by
    show ([Call.write (":OUTP" ++ ch.channel ++ " " ++ "ON")],
          (Except.ok () : Except DevError Unit)) = _
    rw [str_append_assoc (":OUTP" ++ ch.channel) " " "ON"]
    rfl
  have h4 : ch.measure_current ⟨some t, i, u1, u2⟩
      = ([Call.query ("MEAS:CURR? (@" ++ ch.channel ++ ")")],
         Except.ok (t.query ("MEAS:CURR? (@" ++ ch.channel ++ ")"))) := rfl
  refine ⟨h1, h2, h3, h4, ?_⟩
  rw [h1, h2, h3, h4]
  rfl

/-- C7: a successful construction yields exactly the two channels, the first
bound to token "1" and the second to token "2", while the class constants
map `CHAN1` to "2" and `CHAN2` to "1". -/
theorem c7_channel_tokens (rm : String → Transport) (addr : String)
    (d : KeysightB2900)
    (h : (KeysightB2900.connect rm addr).2 = Except.ok d) :
    d.chan1 = SMUChannel.init "1" ∧ d.chan2 = SMUChannel.init "2"
    ∧ d.chan1.channel = "1" ∧ d.chan2.channel = "2"
    ∧ KeysightB2900.CHAN1 = "2" ∧ KeysightB2900.CHAN2 = "1" := by
  unfold KeysightB2900.connect at h
  by_cases hc : strContains ((rm addr).query "*IDN?") "B2902B"
  · simp only [hc, if_true] at h
    cases h
    exact ⟨rfl, rfl, rfl, rfl, rfl, rfl⟩
  · simp only [hc, if_false] at h
    cases h

/-- C7 witness: construction against a concrete B2902B transport succeeds and
the channel tokens are as stated. -/
theorem c7_channel_tokens_witness :
    (KeysightB2900.connect (fun _ => tOK) "USB0::X").2
      = Except.ok ⟨some tOK, "Keysight Technologies,B2902B,MY00000000,1.0.0",
                   SMUChannel.init "1", SMUChannel.init "2"⟩
    ∧ ((⟨some tOK, "Keysight Technologies,B2902B,MY00000000,1.0.0",
         SMUChannel.init "1", SMUChannel.init "2"⟩ : KeysightB2900).chan1.channel = "1"
        ∧ (⟨some tOK, "Keysight Technologies,B2902B,MY00000000,1.0.0",
            SMUChannel.init "1", SMUChannel.init "2"⟩ : KeysightB2900).chan2.channel = "2"
        ∧ KeysightB2900.CHAN1 = "2" ∧ KeysightB2900.CHAN2 = "1") := by
  have hok : (KeysightB2900.connect (fun _ => tOK) "USB0::X").2
      = Except.ok ⟨some tOK, "Keysight Technologies,B2902B,MY00000000,1.0.0",
                   SMUChannel.init "1", SMUChannel.init "2"⟩ := rfl
  have h := c7_channel_tokens (fun _ => tOK) "USB0::X" _ hok
  exact ⟨hok, h.2.2.1, h.2.2.2.1, h.2.2.2.2.1, h.2.2.2.2.2⟩

/-- C9: the two range ceilings of every channel are fixed: no public or
internal operation changes them (only `close` changes any state at all, and
it only nulls the handle), and a successful construction sets them to 20
and 2. -/
theorem c9_ceilings_immutable :
    (∀ (d : KeysightB2900) (op : Op),
      (d.step op).1.chan1.voltage_range = d.chan1.voltage_range
      ∧ (d.step op).1.chan1.current_range = d.chan1.current_range
      ∧ (d.step op).1.chan2.voltage_range = d.chan2.voltage_range
      ∧ (d.step op).1.chan2.current_range = d.chan2.current_range)
    ∧ (∀ (rm : String → Transport) (addr : String) (d : KeysightB2900),
        (KeysightB2900.connect rm addr).2 = Except.ok d →
        d.chan1.voltage_range = 20 ∧ d.chan1.current_range = 2
        ∧ d.chan2.voltage_range = 20 ∧ d.chan2.current_range = 2) := by
  constructor
  · intro d op
    rcases d with ⟨dev, i, u1, u2⟩
    cases op with
    | chanOp sel cop => cases sel <;> exact ⟨rfl, rfl, rfl, rfl⟩
    | close => cases dev <;> exact ⟨rfl, rfl, rfl, rfl⟩
    | reset => exact ⟨rfl, rfl, rfl, rfl⟩
    | write_command cmd => exact ⟨rfl, rfl, rfl, rfl⟩
    | write_query q => exact ⟨rfl, rfl, rfl, rfl⟩
  · intro rm addr d h
    unfold KeysightB2900.connect at h
    by_cases hc : strContains ((rm addr).query "*IDN?") "B2902B"
    · simp only [hc, if_true] at h
      cases h
      exact ⟨rfl, rfl, rfl, rfl⟩
    · simp only [hc, if_false] at h
      cases h

/-- C9 witness: closing the concrete connected device leaves its ceiling
unchanged, and the concrete constructed device has ceiling 20. -/
theorem c9_ceilings_immutable_witness :
    (dConn.step Op.close).1.chan1.voltage_range = dConn.chan1.voltage_range
    ∧ ((KeysightB2900.connect (fun _ => tOK) "USB0::X").2
        = Except.ok ⟨some tOK, "Keysight Technologies,B2902B,MY00000000,1.0.0",
                     SMUChannel.init "1", SMUChannel.init "2"⟩
      ∧ (⟨some tOK, "Keysight Technologies,B2902B,MY00000000,1.0.0",
          SMUChannel.init "1", SMUChannel.init "2"⟩ : KeysightB2900).chan1.voltage_range
          = 20) :=
  ⟨(c9_ceilings_immutable.1 dConn Op.close).1,
   rfl,
   (c9_ceilings_immutable.2 (fun _ => tOK) "USB0::X" _ rfl).1⟩

/-- C3 counterexample: on the concrete device obtained by closing a
connected device, `measure_voltage()` does NOT raise `NotConnectedError` as
the claim states: it fails with the attribute error of calling `query` on a
null handle; and `set_voltage_limit 25` raises `RangeExceededError`, not
`NotConnectedError`. -/
theorem c3_counterexample :
    (dClosed.chan1).measure_voltage dClosed
      = ([], Except.error (DevError.noneAttributeError "query"))
    ∧ (dClosed.chan1).measure_voltage dClosed
      ≠ ([], Except.error DevError.notConnected)
    ∧ (dClosed.chan1).set_voltage_limit dClosed 25
      = ([], Except.error (DevError.rangeExceeded
          "The limit is not within the range. Please set the range first"))
    ∧ (dClosed.chan1).set_voltage_limit dClosed 25
      ≠ ([], Except.error DevError.notConnected) := by
  refine ⟨rfl, ?_, ?_, ?_⟩
  · intro h
    rw [show (dClosed.chan1).measure_voltage dClosed
        = ([], Except.error (DevError.noneAttributeError "query")) from rfl] at h
    simp at h
  · unfold SMUChannel.set_voltage_limit
    rw [if_neg (by decide)]
  · intro h
    unfold SMUChannel.set_voltage_limit at h
    rw [if_neg (by decide)] at h
    simp at h

/-- C3 amended: after `close()`, `write_command`, `write_query`, `reset` and
the channel operations that reach the connection guard raise
`NotConnectedError`, all without touching the transport; but
`set_voltage_limit`/`set_current_limit` with an out-of-range value raise
`RangeExceededError` (local validation runs first), and
`measure_voltage`/`measure_current` fail with the attribute error of calling
`query` on the null handle (`_measure` has no guard) — also without touching
the transport; a second `close()` is a no-op. -/
theorem c3_amended (i : String) (u1 u2 ch : SMUChannel) (cmd q : String) (v : ℚ) :
    (⟨none, i, u1, u2⟩ : KeysightB2900).write_command cmd
      = ([], Except.error DevError.notConnected)
    ∧ (⟨none, i, u1, u2⟩ : KeysightB2900).write_query q
      = ([], Except.error DevError.notConnected)
    ∧ (⟨none, i, u1, u2⟩ : KeysightB2900).reset
      = ([], Except.error DevError.notConnected)
    ∧ ch.set_mode_voltage_source ⟨none, i, u1, u2⟩
      = ([], Except.error DevError.notConnected)
    ∧ ch.set_mode_current_source ⟨none, i, u1, u2⟩
      = ([], Except.error DevError.notConnected)
    ∧ ch.set_voltage ⟨none, i, u1, u2⟩ v = ([], Except.error DevError.notConnected)
    ∧ ch.set_current ⟨none, i, u1, u2⟩ v = ([], Except.error DevError.notConnected)
    ∧ ch.enable_output ⟨none, i, u1, u2⟩ = ([], Except.error DevError.notConnected)
    ∧ ch.disable_output ⟨none, i, u1, u2⟩ = ([], Except.error DevError.notConnected)
    ∧ (v ≤ ch.voltage_range →
        ch.set_voltage_limit ⟨none, i, u1, u2⟩ v
          = ([], Except.error DevError.notConnected))
    ∧ (ch.voltage_range < v →
        ch.set_voltage_limit ⟨none, i, u1, u2⟩ v
          = ([], Except.error (DevError.rangeExceeded
              "The limit is not within the range. Please set the range first")))
    ∧ (v ≤ ch.current_range →
        ch.set_current_limit ⟨none, i, u1, u2⟩ v
          = ([], Except.error DevError.notConnected))
    ∧ (ch.current_range < v →
        ch.set_current_limit ⟨none, i, u1, u2⟩ v
          = ([], Except.error (DevError.rangeExceeded
              "The limit is not within the range. Please set the range first")))
    ∧ ch.measure_voltage ⟨none, i, u1, u2⟩
      = ([], Except.error (DevError.noneAttributeError "query"))
    ∧ ch.measure_current ⟨none, i, u1, u2⟩
      = ([], Except.error (DevError.noneAttributeError "query"))
    ∧ KeysightB2900.close ⟨none, i, u1, u2⟩ = (⟨none, i, u1, u2⟩, []) := by
  refine ⟨rfl, rfl, rfl, rfl, rfl, rfl, rfl, rfl, rfl, ?_, ?_, ?_, ?_, rfl, rfl, rfl⟩
  · intro hv
    unfold SMUChannel.set_voltage_limit
    rw [if_pos hv]
    rfl
  · intro hv
    unfold SMUChannel.set_voltage_limit
    rw [if_neg (not_le.mpr hv)]
  · intro hv
    unfold SMUChannel.set_current_limit
    rw [if_pos hv]
    rfl
  · intro hv
    unfold SMUChannel.set_current_limit
    rw [if_neg (not_le.mpr hv)]

/-- C3 amended witness: concrete instances of the amended behavior after
close — an out-of-range limit raises `RangeExceededError` and a measurement
fails with the null-handle attribute error. -/
theorem c3_amended_witness :
    ((SMUChannel.init "1").voltage_range < 25
      ∧ (SMUChannel.init "1").set_voltage_limit
          ⟨none, "id", SMUChannel.init "1", SMUChannel.init "2"⟩ 25
        = ([], Except.error (DevError.rangeExceeded
            "The limit is not within the range. Please set the range first")))
    ∧ (SMUChannel.init "1").measure_voltage
        ⟨none, "id", SMUChannel.init "1", SMUChannel.init "2"⟩
      = ([], Except.error (DevError.noneAttributeError "query")) := by
  obtain ⟨-, -, -, -, -, -, -, -, -, -, h11, -, -, h14, -, -⟩ :=
    c3_amended "id" (SMUChannel.init "1") (SMUChannel.init "2")
      (SMUChannel.init "1") "CMD" "Q" 25
  exact ⟨⟨by decide, h11 (by decide)⟩, h14⟩

/-- C4 counterexample: against a transport whose identity string lacks
"B2902B", construction raises `UnexpectedDeviceError` as claimed, BUT an
open transport handle does remain: the construction trace opens the resource
and never closes it, refuting the claim's second conjunct. -/
theorem c4_counterexample :
    (KeysightB2900.connect (fun _ => tBad) "USB0::X").2
      = Except.error DevError.unexpectedDevice
    ∧ (KeysightB2900.connect (fun _ => tBad) "USB0::X").1
      = [Call.openR "USB0::X", Call.query "*IDN?"]
    ∧ openHandleRemains (KeysightB2900.connect (fun _ => tBad) "USB0::X").1
      = true :=
  ⟨rfl, rfl, rfl⟩

/-- C4 amended: whenever the identity response lacks the "B2902B" substring,
construction raises `UnexpectedDeviceError`; its transport traffic is
exactly the open and the identity query — no close is ever issued, so the
handle opened during construction remains open. -/
theorem c4_amended (rm : String → Transport) (addr : String)
    (h : strContains ((rm addr).query "*IDN?") "B2902B" = false) :
    (KeysightB2900.connect rm addr).2 = Except.error DevError.unexpectedDevice
    ∧ (KeysightB2900.connect rm addr).1 = [Call.openR addr, Call.query "*IDN?"]
    ∧ openHandleRemains (KeysightB2900.connect rm addr).1 = true := by
  have e : KeysightB2900.connect rm addr
      = ([Call.openR addr, Call.query "*IDN?"],
         Except.error DevError.unexpectedDevice) := by
    unfold KeysightB2900.connect
    rw [if_neg (by simp [h])]
  refine ⟨by rw [e], by rw [e], by rw [e]; rfl⟩

/-- C4 amended witness: the concrete non-B2902B transport satisfies the
hypothesis and exhibits the amended behavior. -/
theorem c4_amended_witness :
    strContains (tBad.query "*IDN?") "B2902B" = false
    ∧ (KeysightB2900.connect (fun _ => tBad) "ADDR").2
      = Except.error DevError.unexpectedDevice
    ∧ openHandleRemains (KeysightB2900.connect (fun _ => tBad) "ADDR").1
      = true :=
  ⟨rfl, (c4_amended (fun _ => tBad) "ADDR" rfl).1,
   (c4_amended (fun _ => tBad) "ADDR" rfl).2.2⟩
